import Mathlib

/-!
# Verification of the OpenHD telemetry Endpoint layer

Shallow embedding of `src/OpenHD/ohd_telemetry/src/endpoints/MEndpoint.h`
(MAVLink endpoint abstraction: channel allocation, send/receive counters,
liveness, frame parsing) and of `VideoFormat` from
`src/OpenHD/ohd_video/inc/openhd-camera.hpp`.

`MEndpoint.h` is a declaration-only header for several members
(`sendMessage`, `parseNewData`, `onNewMavlinkMessage`, `isAlive` have their
bodies in a `.cpp` file that is not part of the excerpt); those are modelled
from the specification, and each such definition carries a
`Modelled from the spec:` doc comment.  Everything defined inline in the
header (`checkoutFreeChannel`, `random_number`,
`parseNewDataEmulateForMavsdk`, `VideoFormat::operator==`) is translated
directly from the source.
-/

namespace OpenHD

/-! ## Channel allocation (`MEndpoint::checkoutFreeChannel`, inline in the header)

The C++ static counter `channel_idx` has type `int`; we represent the
machine integer by its 32-bit two's-complement bit pattern (a `Nat < 2^32`)
and convert to the mathematical value with `intOfBits`.  The increment
`channel_idx++` is arithmetic modulo `2^32` on the bit pattern. -/

/-- Number of bit patterns of a 32-bit `int`. -/
def intModulus : Nat := 2 ^ 32

/-- Two's-complement value of a 32-bit pattern. -/
def intOfBits (b : Nat) : Int :=
  if b < 2 ^ 31 then (b : Int) else (b : Int) - (2 : Int) ^ 32

/-- `MEndpoint::checkoutFreeChannel`: under a lock, return the current value
of the static counter `channel_idx` and increment it.  The state is the
counter's bit pattern; the mutex serialises calls, so the sequential state
threading below is the exact concurrent behaviour. -/
def checkoutFreeChannel (st : Nat) : Int × Nat :=
  (intOfBits st, (st + 1) % intModulus)

/-- Counter bit pattern before the `n`-th allocation of the process
(the static `channel_idx` starts at `0`). -/
def channelState : Nat → Nat
  | 0 => 0
  | n + 1 => (checkoutFreeChannel (channelState n)).2

/-- The `int` returned by the `n`-th call to `checkoutFreeChannel`. -/
def allocValue (n : Nat) : Int :=
  (checkoutFreeChannel (channelState n)).1

/-- The value stored in the `n`-th endpoint's `m_mavlink_channel` field.
The field is declared `const uint8_t` in the header, so the `int` returned
by the allocator is converted to `uint8_t`, i.e. reduced modulo `2^8`
(C++ integer conversion to an unsigned type).  That the constructor
initialises the field from `checkoutFreeChannel()` is modelled from the
spec (the constructor body is not in the excerpt): "assigned once at
endpoint construction" from the allocator. -/
def m_mavlink_channel (n : Nat) : Nat :=
  ((allocValue n) % (2 ^ 8 : Int)).toNat

/-! ## Frame parser

`MEndpoint::parseNewData` delegates byte-stream parsing to the MAVLink
parser, whose code is not in the excerpt.  Modelled from the spec:
the wire format is "a start-of-frame marker byte, a length field, a payload
of that length, and a trailing checksum covering header+payload" (§6), and
the machine is `SeekSync → ReadHeader → ReadPayload → VerifyChecksum →
(emit | discard) → SeekSync`, discarding the in-progress frame and
returning to `SeekSync` on checksum mismatch (§4.4).  Bytes are `Nat`;
the checksum is a concrete representative (sum of header and payload
modulo 256) since the spec fixes only what it covers. -/

/-- Start-of-frame marker byte (MAVLink v1 uses `0xFE`; the spec fixes only
that such a marker byte exists). -/
def SYNC : Nat := 254

/-- Checksum covering header (the length field) and payload. -/
def frameChecksum (len : Nat) (payload : List Nat) : Nat :=
  (len + payload.sum) % 256

/-- Parser decode-status: seeking-sync, accumulating-header,
accumulating-payload, validating-checksum (spec §3). -/
inductive ParserState
  | SeekSync : ParserState
  | ReadHeader : ParserState
  | ReadPayload : Nat → List Nat → ParserState
  | VerifyChecksum : Nat → List Nat → ParserState
deriving DecidableEq, Repr

/-- Modelled from the spec: one step of the frame parser state machine,
consuming a single byte and possibly emitting a completed, checksum-valid
frame's payload. -/
def step : ParserState → Nat → ParserState × Option (List Nat)
  | .SeekSync, b => (if b = SYNC then .ReadHeader else .SeekSync, none)
  | .ReadHeader, b =>
      (if b = 0 then .VerifyChecksum 0 [] else .ReadPayload b [], none)
  | .ReadPayload len acc, b =>
      (if acc.length + 1 = len then .VerifyChecksum len (acc ++ [b])
       else .ReadPayload len (acc ++ [b]), none)
  | .VerifyChecksum len payload, b =>
      if b = frameChecksum len payload then (.SeekSync, some payload)
      else (.SeekSync, none)

/-- Modelled from the spec: feed a buffer into the parser byte by byte,
collecting the emitted messages in order. -/
def parseBytes : ParserState → List Nat → ParserState × List (List Nat)
  | ps, [] => (ps, [])
  | ps, b :: rest =>
      let s1 := step ps b
      let s2 := parseBytes s1.1 rest
      (s2.1, s1.2.toList ++ s2.2)

/-- The well-formed wire encoding of a frame with the given payload:
start-of-frame marker, length field, payload, trailing checksum. -/
def mkFrame (payload : List Nat) : List Nat :=
  SYNC :: payload.length :: (payload ++ [frameChecksum payload.length payload])

/-! ## Endpoint state -/

/-- Observable state of one `MEndpoint`: the registered callback (modelled
as a flag plus the log of invocations, in order), the liveness timestamp
`lastMessage` (`none` before any message has been received), and the
traffic counters, which are C++ `int`s.  A decoded `mavlink_message_t` is
opaque at this layer and modelled as its payload bytes. -/
structure EndpointState where
  callbackRegistered : Bool
  callbackCalls : List (List Nat)
  lastMessage : Option Nat
  m_n_messages_received : Int
  m_n_messages_sent : Int
  m_n_messages_send_failed : Int
deriving DecidableEq, Repr

/-- The member-initialised state of a freshly constructed endpoint
(`callback = nullptr`, `lastMessage{}`, counters `= 0` in the header;
"before any message has ever been received" is `lastMessage = none`). -/
def EndpointState.init : EndpointState :=
  { callbackRegistered := false
    callbackCalls := []
    lastMessage := none
    m_n_messages_received := 0
    m_n_messages_sent := 0
    m_n_messages_send_failed := 0 }

/-- Modelled from the spec: `MEndpoint::onNewMavlinkMessage` (body not in
the excerpt; the header comment says "increases message count and forwards
the message via the callback if registered", and the spec adds that the
liveness timestamp is refreshed on each valid received frame). -/
def onNewMavlinkMessage (now : Nat) (s : EndpointState) (msg : List Nat) :
    EndpointState :=
  { s with
    m_n_messages_received := s.m_n_messages_received + 1
    lastMessage := some now
    callbackCalls :=
      if s.callbackRegistered then s.callbackCalls ++ [msg]
      else s.callbackCalls }

/-- `MEndpoint::parseNewDataEmulateForMavsdk`, inline in the header:
the message is already parsed, so it is handed directly to
`onNewMavlinkMessage`, bypassing the frame parser. -/
def parseNewDataEmulateForMavsdk (now : Nat) (s : EndpointState)
    (msg : List Nat) : EndpointState :=
  onNewMavlinkMessage now s msg

/-- Modelled from the spec: `MEndpoint::parseNewData` (body not in the
excerpt) feeds the buffer into the frame parser and, for each completed,
checksum-valid frame, performs the delivery step `onNewMavlinkMessage`
(refresh liveness, bump the received counter, invoke the callback if
registered), in the order frames complete. -/
def parseNewData (now : Nat) (s : EndpointState) (ps : ParserState)
    (data : List Nat) : EndpointState × ParserState :=
  let r := parseBytes ps data
  (r.2.foldl (onNewMavlinkMessage now) s, r.1)

/-- Modelled from the spec: `MEndpoint::sendMessage` (body not in the
excerpt): "increments sent-attempted; delegates to the transport-specific
send primitive; on success increments sent-succeeded; on any transport
failure increments sent-failed and returns normally", mapped onto the two
send counters declared in the header (`m_n_messages_sent` counts attempts,
`m_n_messages_send_failed` counts failures; successes are the difference).
`implOk` is the `bool` returned by the pure-virtual `sendMessageImpl`
(`false` on a not-connected or failing transport).  The function is total:
no outcome of the transport makes it fail. -/
def sendMessage (s : EndpointState) (implOk : Bool) : EndpointState :=
  { s with
    m_n_messages_sent := s.m_n_messages_sent + 1
    m_n_messages_send_failed :=
      if implOk then s.m_n_messages_send_failed
      else s.m_n_messages_send_failed + 1 }

/-- The derived sent-succeeded count: attempts minus failures. -/
def sentSucceeded (s : EndpointState) : Int :=
  s.m_n_messages_sent - s.m_n_messages_send_failed

/-- Modelled from the spec: `MEndpoint::isAlive` (body not in the excerpt):
alive iff `now - last_received < ALIVE_TIMEOUT`; dead before any message
has ever been received. -/
def isAlive (now timeout : Nat) (s : EndpointState) : Bool :=
  match s.lastMessage with
  | none => false
  | some t => now - t < timeout

/-! ## `MEndpoint::random_number` (inline in the header)

`srand(time(NULL)); rand() % (max - min + 1) + min`.  The C library
generator is a deterministic function of its hidden state; we model it as
an explicit state (a `Nat`) threaded through the call, with an arbitrary
implementation `randImpl : Nat → Nat × Nat` (value drawn, new state).
`srand` replaces the hidden state with one derived from the seed. -/

/-- `srand`: reset the generator state from the seed. -/
def srand (seed : Nat) : Nat := seed

/-- `MEndpoint::random_number`: seed from `time(NULL)` (the argument
`timeNow`), draw once, reduce into `[min, max]` with C `%` (`Int.emod`
agrees with C `%` here since `rand()` is non-negative).  `rngState` is the
generator's hidden state before the call; `srand` overwrites it. -/
def random_number (randImpl : Nat → Nat × Nat) (rngState : Nat)
    (timeNow : Nat) (min max : Int) : Int × Nat :=
  let st := srand timeNow
  let r := randImpl st
  ((r.1 : Int) % (max - min + 1) + min, r.2)

/-! ## `VideoFormat` (`src/OpenHD/ohd_video/inc/openhd-camera.hpp`) -/

/-- The video codecs (from `openhd-camera-enums.hpp`; only distinctness of
the constructors matters here). -/
inductive VideoCodec
  | H264 | H265 | MJPEG | Unknown
deriving DecidableEq, Repr

/-- `struct VideoFormat`: codec, width, height, framerate. -/
structure VideoFormat where
  videoCodec : VideoCodec
  width : Int
  height : Int
  framerate : Int
deriving DecidableEq, Repr

/-- `VideoFormat::operator==`: compares `width`, `height`, `framerate`
(the `videoCodec` field does not appear in the comparison). -/
def VideoFormat.eq (a b : VideoFormat) : Bool :=
  a.width == b.width && a.height == b.height && a.framerate == b.framerate

/-! ## Parser lemmas -/

/-- Parsing a concatenation is parsing the pieces in sequence, with the
emitted messages concatenated: the parser's behaviour is independent of how
the byte stream is chunked into buffers. -/
theorem parseBytes_append (xs ys : List Nat) (ps : ParserState) :
    parseBytes ps (xs ++ ys) =
      ((parseBytes (parseBytes ps xs).1 ys).1,
        (parseBytes ps xs).2 ++ (parseBytes (parseBytes ps xs).1 ys).2) := by
  induction xs generalizing ps with
  | nil => simp [parseBytes]
  | cons b rest ih =>
      simp only [List.cons_append, parseBytes, List.append_eq, ih,
        List.append_assoc]

/-- While seeking sync, bytes that are not the start-of-frame marker are
discarded and emit nothing. -/
theorem parseBytes_seekSync_of_noSync (C : List Nat)
    (h : ∀ b ∈ C, b ≠ SYNC) :
    parseBytes .SeekSync C = (.SeekSync, []) := by
  induction C with
  | nil => rfl
  | cons b rest ih =>
      have hb : b ≠ SYNC := h b (List.mem_cons_self b rest)
      have hrest : ∀ x ∈ rest, x ≠ SYNC := fun x hx => h x (List.mem_cons_of_mem b hx)
      simp [parseBytes, step, hb, ih hrest]

/-- Consuming the remaining payload bytes moves the parser from
accumulating-payload to validating-checksum. -/
theorem parseBytes_readPayload (p : List Nat) :
    ∀ (acc rest : List Nat) (len : Nat), acc.length + p.length = len →
      acc.length < len →
      parseBytes (.ReadPayload len acc) (p ++ rest) =
        parseBytes (.VerifyChecksum len (acc ++ p)) rest := by
  induction p with
  | nil =>
      intro acc rest len hlen hlt
      exfalso
      simp at hlen
      omega
  | cons b p' ih =>
      intro acc rest len hlen hlt
      by_cases hfull : acc.length + 1 = len
      · have hp' : p' = [] := by
          have : p'.length = 0 := by simp at hlen; omega
          exact List.eq_nil_of_length_eq_zero this
        subst hp'
        simp [parseBytes, step, hfull]
      · have hlen' : (acc ++ [b]).length + p'.length = len := by
          simp at hlen ⊢; omega
        have hlt' : (acc ++ [b]).length < len := by
          simp at hlen ⊢; omega
        calc parseBytes (.ReadPayload len acc) ((b :: p') ++ rest)
            = parseBytes (.ReadPayload len (acc ++ [b])) (p' ++ rest) := by
              simp [parseBytes, step, hfull]
          _ = parseBytes (.VerifyChecksum len ((acc ++ [b]) ++ p')) rest :=
              ih (acc ++ [b]) rest len hlen' hlt'
          _ = parseBytes (.VerifyChecksum len (acc ++ (b :: p'))) rest := by
              simp

/-- From sync-seeking state, a well-formed frame is consumed whole, its
payload is emitted, and the parser returns to sync-seeking before the rest
of the stream. -/
theorem parseBytes_mkFrame (p rest : List Nat) :
    parseBytes .SeekSync (mkFrame p ++ rest) =
      ((parseBytes .SeekSync rest).1, p :: (parseBytes .SeekSync rest).2) := by
  rcases List.eq_nil_or_concat p with hp | ⟨q, b, hq⟩
  · subst hp
    simp [mkFrame, parseBytes, step, SYNC, frameChecksum]
  · have hlen0 : p.length ≠ 0 := by
      subst hq; simp
    have h1 : mkFrame p ++ rest =
        SYNC :: p.length ::
          (p ++ (frameChecksum p.length p :: rest)) := by
      simp [mkFrame]
    rw [h1]
    have h2 : parseBytes .SeekSync
        (SYNC :: p.length :: (p ++ (frameChecksum p.length p :: rest))) =
        parseBytes (.ReadPayload p.length [])
          (p ++ (frameChecksum p.length p :: rest)) := by
      simp [parseBytes, step, hlen0]
    rw [h2, parseBytes_readPayload p [] (frameChecksum p.length p :: rest)
      p.length (by simp) (by simpa using Nat.pos_of_ne_zero hlen0)]
    simp [parseBytes, step]

/-- A single well-formed frame, alone, parses to exactly its payload. -/
theorem parseBytes_mkFrame_nil (p : List Nat) :
    parseBytes .SeekSync (mkFrame p) = (.SeekSync, [p]) := by
  have h0 := parseBytes_mkFrame p []
  simp only [List.append_nil] at h0
  rw [h0]
  rfl

/-- Feeding a sequence of well-formed frames emits exactly their payloads,
in order, ending back in sync-seeking state. -/
theorem parseBytes_frameStream (frames : List (List Nat)) :
    parseBytes .SeekSync (frames.map mkFrame).flatten = (.SeekSync, frames) := by
  induction frames with
  | nil => rfl
  | cons p rest ih =>
      simp only [List.map_cons, List.flatten_cons]
      rw [parseBytes_mkFrame, ih]

/-- Effect of delivering a list of parsed messages in order: the received
counter grows by the number of messages, the callback log is extended by
exactly those messages (when registered), the liveness timestamp is
refreshed unless there was nothing to deliver, and the send counters and
registration flag are untouched. -/
theorem foldl_onNewMavlinkMessage (now : Nat) (msgs : List (List Nat)) :
    ∀ s : EndpointState,
      (msgs.foldl (onNewMavlinkMessage now) s).m_n_messages_received =
          s.m_n_messages_received + msgs.length ∧
      (msgs.foldl (onNewMavlinkMessage now) s).callbackCalls =
          s.callbackCalls ++
            (if s.callbackRegistered then msgs else []) ∧
      (msgs.foldl (onNewMavlinkMessage now) s).callbackRegistered =
          s.callbackRegistered ∧
      (msgs.foldl (onNewMavlinkMessage now) s).lastMessage =
          (if msgs.isEmpty then s.lastMessage else some now) ∧
      (msgs.foldl (onNewMavlinkMessage now) s).m_n_messages_sent =
          s.m_n_messages_sent ∧
      (msgs.foldl (onNewMavlinkMessage now) s).m_n_messages_send_failed =
          s.m_n_messages_send_failed := by
  induction msgs with
  | nil => intro s; simp
  | cons m rest ih =>
      intro s
      have h := ih (onNewMavlinkMessage now s m)
      simp only [List.foldl_cons] at *
      rcases h with ⟨h1, h2, h3, h4, h5, h6⟩
      refine ⟨?_, ?_, ?_, ?_, ?_, ?_⟩
      · rw [h1]; simp [onNewMavlinkMessage]; ring
      · rw [h2]; by_cases hreg : s.callbackRegistered <;>
          simp [onNewMavlinkMessage, hreg]
      · rw [h3]; simp [onNewMavlinkMessage]
      · rw [h4]; by_cases hrest : rest.isEmpty <;>
          simp [onNewMavlinkMessage, hrest]
      · rw [h5]; simp [onNewMavlinkMessage]
      · rw [h6]; simp [onNewMavlinkMessage]

/-! ## Channel allocator lemmas -/

/-- The allocator counter's bit pattern before the `n`-th call is
`n` reduced modulo `2^32`. -/
theorem channelState_eq (n : Nat) : channelState n = n % intModulus := by
  induction n with
  | zero => rfl
  | succ n ih =>
      have h1 : (1 : Nat) % intModulus = 1 := by norm_num [intModulus]
      calc channelState (n + 1) = (channelState n + 1) % intModulus := rfl
        _ = (n % intModulus + 1 % intModulus) % intModulus := by rw [ih, h1]
        _ = (n + 1) % intModulus := (Nat.add_mod n 1 intModulus).symm

/-- Two's-complement decoding is injective on 32-bit patterns. -/
theorem intOfBits_inj (i j : Nat) (hi : i < intModulus) (hj : j < intModulus)
    (h : intOfBits i = intOfBits j) : i = j := by
  simp only [intOfBits, intModulus] at *
  norm_num at hi hj
  split_ifs at h <;> omega

/-- The `int` returned by the `n`-th allocation decodes the pattern
`n % 2^32`. -/
theorem allocValue_eq (n : Nat) : allocValue n = intOfBits (n % intModulus) := by
  unfold allocValue checkoutFreeChannel
  rw [channelState_eq]

/-- The `uint8_t` actually stored in the `n`-th endpoint is `n` modulo 256:
the allocator's `int` is truncated to the low byte by the field's type. -/
theorem m_mavlink_channel_eq (n : Nat) : m_mavlink_channel n = n % 256 := by
  unfold m_mavlink_channel
  rw [allocValue_eq]
  have hdecode : intOfBits (n % intModulus) % (2 ^ 8 : Int) =
      ((n % intModulus : Nat) : Int) % (2 ^ 8 : Int) := by
    unfold intOfBits
    split_ifs with h
    · rfl
    · rw [Int.sub_emod]
      norm_num
  rw [hdecode]
  have hcast : ((n % intModulus : Nat) : Int) % (2 ^ 8 : Int) =
      (((n % intModulus) % 2 ^ 8 : Nat) : Int) := by
    push_cast
    ring_nf
  rw [hcast, Int.toNat_natCast]
  have : (2 ^ 8 : Nat) ∣ intModulus := by norm_num [intModulus]
  rw [Nat.mod_mod_of_dvd n this]
  norm_num

/-! ## Claims C1 and C7 -/

/-- C1 (counterexample): the claim "the identifier stored in the endpoint
(its `m_mavlink_channel` field) never equals that of another live
endpoint" fails: the field is a `uint8_t`, so the 1st and the 257th
endpoint constructed in one process lifetime (allocation indices 0 and
256, all endpoints still live) store the same channel byte 0, while their
allocator return values 0 and 256 are distinct. -/
theorem channel_uniqueness_counterexample :
    m_mavlink_channel 0 = m_mavlink_channel 256 ∧ (0 : Nat) ≠ 256 ∧
    allocValue 0 ≠ allocValue 256 := by
  refine ⟨?_, by norm_num, ?_⟩
  · rw [m_mavlink_channel_eq, m_mavlink_channel_eq]
  · rw [allocValue_eq, allocValue_eq]
    intro h
    have := intOfBits_inj (0 % intModulus) (256 % intModulus)
      (Nat.mod_lt _ (by norm_num [intModulus]))
      (Nat.mod_lt _ (by norm_num [intModulus])) h
    rw [Nat.mod_eq_of_lt (by norm_num [intModulus]),
      Nat.mod_eq_of_lt (by norm_num [intModulus])] at this
    exact absurd this (by norm_num)

/-- C1 (amended): every call to the channel allocator returns a fresh
`int` (distinct across any two of the first `2^32` calls, i.e. until the
counter's bit pattern wraps), and the channel bytes stored in the
endpoints' `m_mavlink_channel` fields are pairwise distinct provided at
most 256 endpoints are constructed during the process lifetime (the
`uint8_t` field keeps only the low byte of the allocated `int`). -/
theorem channel_uniqueness :
    (∀ i j : Nat, i < intModulus → j < intModulus → i ≠ j →
      allocValue i ≠ allocValue j) ∧
    (∀ i j : Nat, i < 256 → j < 256 → i ≠ j →
      m_mavlink_channel i ≠ m_mavlink_channel j) := by
  constructor
  · intro i j hi hj hij h
    rw [allocValue_eq, allocValue_eq] at h
    have := intOfBits_inj (i % intModulus) (j % intModulus)
      (Nat.mod_lt _ (by norm_num [intModulus]))
      (Nat.mod_lt _ (by norm_num [intModulus])) h
    rw [Nat.mod_eq_of_lt hi, Nat.mod_eq_of_lt hj] at this
    exact hij this
  · intro i j hi hj hij h
    rw [m_mavlink_channel_eq, m_mavlink_channel_eq,
      Nat.mod_eq_of_lt hi, Nat.mod_eq_of_lt hj] at h
    exact hij h

/-- Witness for C1 (amended) at allocation indices 0 and 1. -/
theorem channel_uniqueness_witness :
    allocValue 0 ≠ allocValue 1 ∧ m_mavlink_channel 0 ≠ m_mavlink_channel 1 :=
  ⟨channel_uniqueness.1 0 1 (by norm_num [intModulus])
      (by norm_num [intModulus]) (by norm_num),
    channel_uniqueness.2 0 1 (by norm_num) (by norm_num) (by norm_num)⟩

/-- C7: channel allocation is total (the modelled allocator is a total
function) and monotonic: with the counter's bit pattern `st`, the value
returned now is strictly less than the value the next call returns,
except when the counter sits at `INT_MAX = 2^31 - 1`, where the next
returned value wraps to `INT_MIN = -2^31` (arithmetic modulo the 32-bit
width, the accepted edge case). -/
theorem checkoutFreeChannel_monotonic (st : Nat) (hst : st < intModulus) :
    (st ≠ 2 ^ 31 - 1 →
      (checkoutFreeChannel st).1 <
        (checkoutFreeChannel (checkoutFreeChannel st).2).1) ∧
    (st = 2 ^ 31 - 1 →
      (checkoutFreeChannel st).1 = 2 ^ 31 - 1 ∧
      (checkoutFreeChannel (checkoutFreeChannel st).2).1 = -(2 ^ 31)) := by
  simp only [checkoutFreeChannel, intModulus] at *
  by_cases htop : st = 2 ^ 32 - 1
  · subst htop
    constructor
    · intro _
      have h0 : (2 ^ 32 - 1 + 1) % 2 ^ 32 = 0 := by norm_num
      rw [h0]
      simp only [intOfBits]
      norm_num
    · intro h
      exfalso
      norm_num at h
  · have hlt : st + 1 < 2 ^ 32 := by omega
    have h1 : (st + 1) % 2 ^ 32 = st + 1 := Nat.mod_eq_of_lt hlt
    rw [h1]
    constructor
    · intro hne
      simp only [intOfBits]
      split_ifs with h2 h3 h3
      · exact_mod_cast Nat.lt_succ_self st
      · exfalso
        have : st + 1 = 2 ^ 31 := by omega
        omega
      · omega
      · have : (st : Int) < (st : Int) + 1 := by omega
        omega
    · intro heq
      subst heq
      constructor
      · simp only [intOfBits]
        norm_num
      · simp only [intOfBits]
        norm_num

/-- Witness for C7 at counter pattern 5. -/
theorem checkoutFreeChannel_monotonic_witness :
    (checkoutFreeChannel 5).1 <
      (checkoutFreeChannel (checkoutFreeChannel 5).2).1 :=
  (checkoutFreeChannel_monotonic 5 (by norm_num [intModulus])).1 (by norm_num)

/-! ## Claims C2 and C3 (send path) -/

/-- C2: `sendMessage` increments the sent-attempted count
(`m_n_messages_sent`) by exactly one; on transport success the derived
sent-succeeded count grows by exactly one and the failure count is
unchanged; on transport failure the failure count grows by exactly one
and the sent-succeeded count is unchanged. -/
theorem sendMessage_counters (s : EndpointState) (implOk : Bool) :
    (sendMessage s implOk).m_n_messages_sent = s.m_n_messages_sent + 1 ∧
    (sendMessage s implOk).m_n_messages_send_failed =
      (if implOk then s.m_n_messages_send_failed
       else s.m_n_messages_send_failed + 1) ∧
    sentSucceeded (sendMessage s implOk) =
      (if implOk then sentSucceeded s + 1 else sentSucceeded s) := by
  cases implOk <;> simp [sendMessage, sentSucceeded] <;> ring

/-- C3: `sendMessage` is a total function of the endpoint state and the
transport outcome — it returns normally for every state, including a
never-connected or disconnected transport (`implOk = false`) — and its
only effect is on the send counters: the callback registration, the
callback log, the liveness timestamp, the received counter and every
later alive/dead query are exactly as before the call. -/
theorem sendMessage_returns_normally (s : EndpointState) (implOk : Bool) :
    (sendMessage s implOk).callbackRegistered = s.callbackRegistered ∧
    (sendMessage s implOk).callbackCalls = s.callbackCalls ∧
    (sendMessage s implOk).lastMessage = s.lastMessage ∧
    (sendMessage s implOk).m_n_messages_received = s.m_n_messages_received ∧
    (∀ now timeout : Nat,
      isAlive now timeout (sendMessage s implOk) = isAlive now timeout s) := by
  refine ⟨rfl, rfl, rfl, rfl, fun now timeout => ?_⟩
  simp [isAlive, sendMessage]

/-! ## Claim C4 (liveness) -/

/-- C4: after the liveness refresh performed for a message received at
time `T`, a query at `T + d` (with no refresh in between) reports alive
exactly when `d` is strictly below the timeout; and a freshly constructed
endpoint, before any message has ever been received, reports dead at
every time and for every timeout. -/
theorem isAlive_iff_within_timeout :
    (∀ (s : EndpointState) (m : List Nat) (T d D : Nat),
      isAlive (T + d) D (onNewMavlinkMessage T s m) = decide (d < D)) ∧
    (∀ now D : Nat, isAlive now D EndpointState.init = false) := by
  constructor
  · intro s m T d D
    simp [isAlive, onNewMavlinkMessage, Nat.add_sub_cancel_left]
  · intro now D
    rfl

/-! ## Claims C5 and C6 (parser) -/

/-- C5 (counterexample): the claim fails as stated for arbitrary corrupt
bytes.  With the empty-payload frame `mkFrame [] = [SYNC, 0, 0]` as both
well-formed frames and the single corrupt byte `C = [SYNC]`, the stream
`F1 ++ C ++ F2` emits one message, not two: the corrupt sync byte opens a
bogus frame whose length field is consumed from `F2`'s sync byte, and
`F2` is swallowed as that bogus frame's payload.  (The two frames
back-to-back without the corrupt byte do emit exactly two messages.) -/
theorem parser_resynchronization_counterexample :
    ((parseBytes .SeekSync (mkFrame [] ++ [SYNC] ++ mkFrame [])).2).length
        = 1 ∧
    ((parseBytes .SeekSync (mkFrame [] ++ mkFrame [])).2).length = 2 := by
  constructor <;> rfl

/-- C5 (amended): feeding the parser a well-formed frame, then corrupt
bytes none of which equals the start-of-frame marker, then another
well-formed frame emits exactly the two frames' payloads, in order, and
leaves the parser reseeking sync (the corrupt bytes are discarded without
desynchronizing the following frame, and the total function cannot
crash). -/
theorem parser_resynchronization (p1 p2 C : List Nat)
    (hC : ∀ b ∈ C, b ≠ SYNC) :
    parseBytes .SeekSync (mkFrame p1 ++ C ++ mkFrame p2) =
      (.SeekSync, [p1, p2]) := by
  have h2 : parseBytes .SeekSync (C ++ mkFrame p2) = (.SeekSync, [p2]) := by
    rw [parseBytes_append, parseBytes_seekSync_of_noSync C hC]
    simp [parseBytes_mkFrame_nil]
  rw [List.append_assoc, parseBytes_mkFrame, h2]

/-- Witness for C5 (amended): frames with payloads `[1, 2]` and `[3]`
around the single non-sync corrupt byte `7`. -/
theorem parser_resynchronization_witness :
    parseBytes .SeekSync (mkFrame [1, 2] ++ [7] ++ mkFrame [3]) =
      (.SeekSync, [[1, 2], [3]]) :=
  parser_resynchronization [1, 2] [3] [7] (by decide)

/-- C6: feeding a sequence of well-formed frames (no corruption) through
`parseNewData` invokes the registered callback exactly once per frame, in
the order the frames' terminating bytes were parsed — the callback log is
extended by exactly the payload list, with no reordering, duplication or
skipping (and by nothing when no callback is registered); the received
counter grows by the number of frames, and the parser ends reseeking
sync. -/
theorem callback_ordering (frames : List (List Nat)) (s : EndpointState)
    (now : Nat) :
    (parseNewData now s .SeekSync (frames.map mkFrame).flatten).1.callbackCalls
        = s.callbackCalls ++ (if s.callbackRegistered then frames else []) ∧
    (parseNewData now s .SeekSync
        (frames.map mkFrame).flatten).1.m_n_messages_received
        = s.m_n_messages_received + frames.length ∧
    (parseNewData now s .SeekSync (frames.map mkFrame).flatten).2
        = .SeekSync := by
  simp only [parseNewData, parseBytes_frameStream]
  exact ⟨(foldl_onNewMavlinkMessage now frames s).2.1,
    (foldl_onNewMavlinkMessage now frames s).1, trivial⟩

/-! ## Claim C8 (emulated path) -/

/-- C8: the emulated path `parseNewDataEmulateForMavsdk` is exactly the
normal delivery step `onNewMavlinkMessage`, and has exactly the same
effect as feeding a well-formed frame carrying the message through
`parseNewData`: the received counter grows by one, the liveness timestamp
is refreshed to now, and the callback (when registered) is invoked with
exactly that message — with no frame parser involved. -/
theorem emulated_path_equivalence (now : Nat) (s : EndpointState)
    (m : List Nat) :
    parseNewDataEmulateForMavsdk now s m = onNewMavlinkMessage now s m ∧
    parseNewDataEmulateForMavsdk now s m =
      (parseNewData now s .SeekSync (mkFrame m)).1 ∧
    (parseNewDataEmulateForMavsdk now s m).m_n_messages_received =
      s.m_n_messages_received + 1 ∧
    (parseNewDataEmulateForMavsdk now s m).lastMessage = some now ∧
    (parseNewDataEmulateForMavsdk now s m).callbackCalls =
      s.callbackCalls ++ (if s.callbackRegistered then [m] else []) := by
  refine ⟨rfl, ?_, rfl, rfl, ?_⟩
  · simp [parseNewDataEmulateForMavsdk, parseNewData, parseBytes_mkFrame_nil]
  · by_cases hreg : s.callbackRegistered <;>
      simp [parseNewDataEmulateForMavsdk, onNewMavlinkMessage, hreg]

/-! ## Claim C9 (`random_number` determinism) -/

/-- C9: because `random_number` reseeds the generator from the observed
wall-clock second on every call, its result is a function of
`(time, min, max)` only: two calls with the same bounds that observe the
same `time(NULL)` value return the same number, whatever generator state
each call started from. -/
theorem random_number_deterministic (randImpl : Nat → Nat × Nat)
    (s1 s2 timeNow : Nat) (min max : Int) (h : min ≤ max) :
    (random_number randImpl s1 timeNow min max).1 =
      (random_number randImpl s2 timeNow min max).1 := rfl

/-- Witness for C9: a concrete linear-congruential `randImpl`, generator
states 0 and 99, time 5, bounds `[-3, 7]`. -/
theorem random_number_deterministic_witness :
    (random_number (fun st => (st * 1103515245 + 12345, st + 1)) 0 5
        (-3) 7).1 =
      (random_number (fun st => (st * 1103515245 + 12345, st + 1)) 99 5
        (-3) 7).1 :=
  random_number_deterministic (fun st => (st * 1103515245 + 12345, st + 1))
    0 99 5 (-3) 7 (by norm_num)

/-! ## Claim C10 (`VideoFormat` equality) -/

/-- C10: `VideoFormat::operator==` holds exactly when width, height and
framerate agree — the codec field is ignored, so two formats differing
only in codec (H264 vs H265 at the same resolution and framerate) compare
as equal. -/
theorem videoFormat_eq_ignores_codec :
    (∀ a b : VideoFormat,
      VideoFormat.eq a b = true ↔
        a.width = b.width ∧ a.height = b.height ∧
          a.framerate = b.framerate) ∧
    VideoFormat.eq ⟨.H264, 1280, 720, 60⟩ ⟨.H265, 1280, 720, 60⟩ = true := by
  constructor
  · intro a b
    simp [VideoFormat.eq, and_assoc]
  · rfl

end OpenHD
